import Mathlib

/-!
Verification of the account mutation state machine of a small transaction
engine.  The engine ingests an ordered stream of mutations (deposits,
withdrawals, disputes, resolves, chargebacks) for many client accounts and
maintains per-account balances together with a ledger of past
deposit/withdrawal transactions.

The definitions below are a shallow embedding of the Rust sources
(`account.rs`, `transaction.rs`, `main.rs`).  Monetary amounts are `u32`
fixed-point counts of 1/10000 currency units; we model them as `Nat` and
take results modulo `2^32` exactly where the Rust code performs unchecked
(wrapping) `u32` addition, and model `u32::checked_sub` explicitly.
-/

namespace TxnEngine

/-- Modulus of the 32-bit unsigned integers used for all monetary amounts. -/
def u32Mod : Nat := 4294967296

/-- The five kinds of input records (`TransactionType` in `transaction.rs`). -/
inductive TransactionType where
  | Deposit
  | Withdrawal
  | Dispute
  | Resolve
  | Chargeback
deriving DecidableEq

/-- Lifecycle status of a stored ledger entry (`TransactionStatus`). -/
inductive TransactionStatus where
  | Ok
  | Disputed
  | Resolved
  | Refunded
deriving DecidableEq

/-- A stored ledger entry (`Transaction` in `transaction.rs`). -/
structure Transaction where
  id : Nat
  kind : TransactionType
  client : Nat
  amount : Nat
  status : TransactionStatus
deriving DecidableEq

/-- An input record (`Mutation` in `transaction.rs`); dispute-family records
carry no amount, hence the `Option`. -/
structure Mutation where
  id : Nat
  kind : TransactionType
  client : Nat
  amount : Option Nat
deriving DecidableEq

/-- The error outcomes the engine can report.  The Rust code produces `eyre`
string errors; we name each production site. -/
inductive MutErr where
  | LockedAccount
  | AmountMissing
  | InsufficientFunds
  | OnlyDepositsDisputable
  | DisputeUnderflow
  | ResolveUnderflow
  | ChargebackUnderflow
deriving DecidableEq

instance : DecidableEq (Except MutErr Unit) := fun x y =>
  match x, y with
  | .ok (), .ok () => isTrue rfl
  | .error e1, .error e2 =>
      if h : e1 = e2 then isTrue (by rw [h])
      else isFalse fun hc => h (Except.error.inj hc)
  | .ok (), .error _ => isFalse fun hc => Except.noConfusion hc
  | .error _, .ok () => isFalse fun hc => Except.noConfusion hc

/-- `u32::checked_sub`: `some (a - b)` when no underflow, else `none`. -/
def checkedSub (a b : Nat) : Option Nat :=
  if b ≤ a then some (a - b) else none

/-- The ledger of stored transactions (`Transactions` in `transaction.rs`), a
`HashMap<u32, Transaction>` modelled by its lookup function. -/
abbrev Transactions := Nat → Option Transaction

/-- The empty ledger (`Transactions::default`). -/
def Transactions.empty : Transactions := fun _ => none

/-- `HashMap::insert`: stores `t` under `id`, replacing any previous entry. -/
def Transactions.insert (l : Transactions) (id : Nat) (t : Transaction) :
    Transactions :=
  fun k => if k = id then some t else l k

/-- A client account (`Account` in `account.rs`). -/
structure Account where
  client : Nat
  available : Nat
  held : Nat
  total : Nat
  locked : Bool
deriving DecidableEq

/-- `Account::new`: zero balances, unlocked. -/
def Account.new (client : Nat) : Account :=
  { client := client, available := 0, held := 0, total := 0, locked := false }

/-- The spec's balance-sheet equation for one account. -/
def Account.balanced (a : Account) : Prop :=
  a.total = a.available + a.held

instance (a : Account) : Decidable a.balanced := by
  unfold Account.balanced; infer_instance

/-- `TryInto<Transaction> for Mutation`: fails when the amount is absent,
otherwise builds an `Ok`-status entry. -/
def Mutation.tryIntoTransaction (m : Mutation) : Except MutErr Transaction :=
  match m.amount with
  | none => .error .AmountMissing
  | some a => .ok { id := m.id, kind := m.kind, client := m.client,
                    amount := a, status := .Ok }

/-- Result of one mutation: the Rust `Result<()>` together with the state the
in-place mutation leaves behind (also on the error paths, which may have
already written some fields). -/
abbrev MutResult := Except MutErr Unit × Account × Transactions

/-- `Account::process_deposit`: wrapping `u32` additions, then ledger insert. -/
def Account.processDeposit (a : Account) (m : Mutation) (l : Transactions) :
    MutResult :=
  match m.tryIntoTransaction with
  | .error e => (.error e, a, l)
  | .ok t =>
      (.ok (),
       { a with available := (a.available + t.amount) % u32Mod,
                total := (a.total + t.amount) % u32Mod },
       l.insert t.id t)

/-- `Account::process_withdrawal`: checked subtraction on `available` then
`total`; both fields updated together only when both succeed, then the entry
is inserted. -/
def Account.processWithdrawal (a : Account) (m : Mutation) (l : Transactions) :
    MutResult :=
  match m.tryIntoTransaction with
  | .error e => (.error e, a, l)
  | .ok t =>
      match checkedSub a.available t.amount with
      | none => (.error .InsufficientFunds, a, l)
      | some av =>
          match checkedSub a.total t.amount with
          | none => (.error .InsufficientFunds, a, l)
          | some tot =>
              (.ok (), { a with available := av, total := tot },
               l.insert t.id t)

/-- `Account::process_dispute`.  The match arms are checked in source order:
an entry with status `Ok` (of any kind) is disputed; otherwise a non-deposit
entry is a reportable error; otherwise (absent, or non-`Ok` deposit) the
record is silently ignored. -/
def Account.processDispute (a : Account) (id : Nat) (l : Transactions) :
    MutResult :=
  match l id with
  | some t =>
      if t.status = .Ok then
        match checkedSub a.available t.amount with
        | none => (.error .DisputeUnderflow, a, l)
        | some av =>
            (.ok (),
             { a with available := av, held := (a.held + t.amount) % u32Mod },
             l.insert id { t with status := .Disputed })
      else if t.kind ≠ .Deposit then
        (.error .OnlyDepositsDisputable, a, l)
      else
        (.ok (), a, l)
  | none => (.ok (), a, l)

/-- `Account::process_resolve`.  Note the source increments `available`
before the checked subtraction on `held`; on underflow it returns an error
with `available` already incremented. -/
def Account.processResolve (a : Account) (id : Nat) (l : Transactions) :
    MutResult :=
  match l id with
  | some t =>
      if t.status = .Disputed then
        let a1 := { a with available := (a.available + t.amount) % u32Mod }
        match checkedSub a.held t.amount with
        | none => (.error .ResolveUnderflow, a1, l)
        | some h =>
            (.ok (), { a1 with held := h },
             l.insert id { t with status := .Resolved })
      else
        (.ok (), a, l)
  | none => (.ok (), a, l)

/-- `Account::process_chargeback`: checked subtraction on `available` and
`total`, applied together; on success the account is locked and the entry
becomes `Refunded`. -/
def Account.processChargeback (a : Account) (id : Nat) (l : Transactions) :
    MutResult :=
  match l id with
  | some t =>
      if t.status = .Resolved then
        match checkedSub a.available t.amount with
        | none => (.error .ChargebackUnderflow, a, l)
        | some av =>
            match checkedSub a.total t.amount with
            | none => (.error .ChargebackUnderflow, a, l)
            | some tot =>
                (.ok (),
                 { a with available := av, total := tot, locked := true },
                 l.insert id { t with status := .Refunded })
      else
        (.ok (), a, l)
  | none => (.ok (), a, l)

/-- `Account::mutate`: reject everything on a locked account, otherwise
dispatch on the mutation kind. -/
def Account.mutate (a : Account) (m : Mutation) (l : Transactions) :
    MutResult :=
  if a.locked then (.error .LockedAccount, a, l)
  else
    match m.kind with
    | .Deposit => a.processDeposit m l
    | .Withdrawal => a.processWithdrawal m l
    | .Dispute => a.processDispute m.id l
    | .Resolve => a.processResolve m.id l
    | .Chargeback => a.processChargeback m.id l

/-- Apply a list of mutations to one account in order, threading the ledger;
the state after an error is the state the failing call left behind. -/
def Account.applySeq (a : Account) (l : Transactions) :
    List Mutation → Account × Transactions
  | [] => (a, l)
  | m :: ms => ((a.mutate m l).2.1).applySeq (a.mutate m l).2.2 ms

/-- Rewrite the client field of every stored entry; the dispute-family
processors never read that field, which the naturality theorems below make
precise. -/
def Transactions.mapClient (f : Nat → Nat) (l : Transactions) : Transactions :=
  fun k => (l k).map fun t => { t with client := f t.client }

/-- The registry of accounts (`Accounts` in `account.rs`), a
`HashMap<u16, Account>` modelled by its lookup function. -/
abbrev Accounts := Nat → Option Account

/-- The empty registry (`Accounts::default`). -/
def Accounts.empty : Accounts := fun _ => none

/-- `Accounts::account_for_id`: return the stored account, or lazily create a
fresh one (also recording it in the registry). -/
def Accounts.accountForId (s : Accounts) (client : Nat) : Account × Accounts :=
  match s client with
  | some a => (a, s)
  | none =>
      (Account.new client,
       fun k => if k = client then some (Account.new client) else s k)

/-- The whole engine state: the account registry and the shared ledger. -/
structure EngineState where
  accounts : Accounts
  trxs : Transactions

/-- State at the start of a run: no accounts, empty ledger. -/
def EngineState.initial : EngineState :=
  { accounts := Accounts.empty, trxs := Transactions.empty }

/-- One iteration of the driver loop in `main.rs`:
`accounts.account_for_id(trx.client).mutate(trx, &mut trxs)`. -/
def EngineState.step (s : EngineState) (m : Mutation) :
    Except MutErr Unit × EngineState :=
  let p := s.accounts.accountForId m.client
  let r := p.1.mutate m s.trxs
  (r.1,
   { accounts := fun k => if k = m.client then some r.2.1 else p.2 k,
     trxs := r.2.2 })

/-- The driver loop: process records in order, aborting on the first error
(the `?` in `main.rs`); the state at the abort point is returned. -/
def EngineState.run (s : EngineState) :
    List Mutation → Except MutErr Unit × EngineState
  | [] => (.ok (), s)
  | m :: ms =>
      match s.step m with
      | (.ok _, s1) => s1.run ms
      | (.error e, s1) => (.error e, s1)

/-- C1: the claim states that a Dispute whose id refers to an existing
ledger entry of kind Withdrawal always returns the `OnlyDepositsDisputable`
error with the account unchanged.  Evaluating the code at the failing input
(deposit 10, withdrawal 3, then a dispute of the withdrawal) shows the
dispute instead returns success and moves the withdrawal's amount from
`available` to `held`, marking the Ok-status withdrawal entry `Disputed`:
the status guard is checked before the kind guard, contradicting the code's
own error message that only deposits can be disputed. -/
theorem dispute_of_ok_withdrawal_is_accepted :
    ((EngineState.initial.run
        [⟨1, .Deposit, 1, some 10⟩, ⟨2, .Withdrawal, 1, some 3⟩]).2.accounts 1
      = some ⟨1, 7, 0, 7, false⟩)
    ∧ ((EngineState.initial.run
        [⟨1, .Deposit, 1, some 10⟩, ⟨2, .Withdrawal, 1, some 3⟩]).2.trxs 2
      = some ⟨2, .Withdrawal, 1, 3, .Ok⟩)
    ∧ ((EngineState.initial.run
        [⟨1, .Deposit, 1, some 10⟩, ⟨2, .Withdrawal, 1, some 3⟩,
         ⟨2, .Dispute, 1, none⟩]).1 = .ok ())
    ∧ ((EngineState.initial.run
        [⟨1, .Deposit, 1, some 10⟩, ⟨2, .Withdrawal, 1, some 3⟩,
         ⟨2, .Dispute, 1, none⟩]).2.accounts 1 = some ⟨1, 4, 3, 7, false⟩)
    ∧ ((EngineState.initial.run
        [⟨1, .Deposit, 1, some 10⟩, ⟨2, .Withdrawal, 1, some 3⟩,
         ⟨2, .Dispute, 1, none⟩]).2.trxs 2
      = some ⟨2, .Withdrawal, 1, 3, .Disputed⟩) := by
  decide

/-- C2: the claim states that `total == available + held` holds after every
`mutate` call, success or error, whenever it held before the call.
Evaluating the code at the failing input refutes this: client 2 deposits
under transaction 1, client 1 deposits under transaction 2 and then disputes
transaction 1 (the engine never compares the entry's client with the account
being mutated), and finally client 2 issues a Resolve of transaction 1.
`process_resolve` increments `available` before the checked subtraction of
`held` underflows, so the run aborts with client 2's account left at
available 10, held 0, total 5, violating the invariant that held before the
call. -/
theorem resolve_underflow_breaks_balance :
    ((EngineState.initial.run
        [⟨1, .Deposit, 2, some 5⟩, ⟨2, .Deposit, 1, some 5⟩,
         ⟨1, .Dispute, 1, none⟩]).2.accounts 1 = some ⟨1, 0, 5, 5, false⟩)
    ∧ ((EngineState.initial.run
        [⟨1, .Deposit, 2, some 5⟩, ⟨2, .Deposit, 1, some 5⟩,
         ⟨1, .Dispute, 1, none⟩]).2.accounts 2 = some ⟨2, 5, 0, 5, false⟩)
    ∧ Account.balanced ⟨1, 0, 5, 5, false⟩
    ∧ Account.balanced ⟨2, 5, 0, 5, false⟩
    ∧ ((EngineState.initial.run
        [⟨1, .Deposit, 2, some 5⟩, ⟨2, .Deposit, 1, some 5⟩,
         ⟨1, .Dispute, 1, none⟩, ⟨1, .Resolve, 2, none⟩]).1
      = .error .ResolveUnderflow)
    ∧ ((EngineState.initial.run
        [⟨1, .Deposit, 2, some 5⟩, ⟨2, .Deposit, 1, some 5⟩,
         ⟨1, .Dispute, 1, none⟩, ⟨1, .Resolve, 2, none⟩]).2.accounts 2
      = some ⟨2, 10, 0, 5, false⟩)
    ∧ ¬ Account.balanced ⟨2, 10, 0, 5, false⟩ := by
  decide

/-- C8: a deposit of 5.0000 (50000 fixed-point units) followed by a dispute
of it makes a withdrawal of 5.0000 fail with `InsufficientFunds` (the funds
are held, not available), while the same withdrawal issued before any
dispute succeeds. -/
theorem dispute_blocks_withdrawal_ordering :
    ((EngineState.initial.run
        [⟨1, .Deposit, 1, some 50000⟩, ⟨1, .Dispute, 1, none⟩,
         ⟨2, .Withdrawal, 1, some 50000⟩]).1 = .error .InsufficientFunds)
    ∧ ((EngineState.initial.run
        [⟨1, .Deposit, 1, some 50000⟩, ⟨1, .Dispute, 1, none⟩,
         ⟨2, .Withdrawal, 1, some 50000⟩]).2.accounts 1
      = some ⟨1, 0, 50000, 50000, false⟩)
    ∧ ((EngineState.initial.run
        [⟨1, .Deposit, 1, some 50000⟩,
         ⟨2, .Withdrawal, 1, some 50000⟩]).1 = .ok ())
    ∧ ((EngineState.initial.run
        [⟨1, .Deposit, 1, some 50000⟩,
         ⟨2, .Withdrawal, 1, some 50000⟩]).2.accounts 1
      = some ⟨1, 0, 0, 0, false⟩) := by
  decide

/-- C3: every mutation of any kind on a locked account returns the
`LockedAccount` error with account and ledger untouched, and consequently no
sequence of later mutations applied to that account ever changes its
`available`, `held`, `total` or `locked` fields. -/
theorem locked_account_is_terminal (a : Account) (h : a.locked = true) :
    (∀ m l, a.mutate m l = (.error .LockedAccount, a, l)) ∧
    (∀ l ms, a.applySeq l ms = (a, l)) := by
  have hm : ∀ m l, a.mutate m l = (.error .LockedAccount, a, l) := fun m l => by
    simp [Account.mutate, h]
  refine ⟨hm, fun l ms => ?_⟩
  induction ms generalizing l with
  | nil => rfl
  | cons m ms ih => rw [Account.applySeq, hm]; exact ih _

/-- Witness for C3 at a concrete locked account and mutation sequence. -/
theorem locked_account_is_terminal_witness :
    ((⟨7, 2, 3, 5, true⟩ : Account).mutate ⟨1, .Deposit, 7, some 5⟩
        Transactions.empty
      = (.error .LockedAccount, ⟨7, 2, 3, 5, true⟩, Transactions.empty))
    ∧ ((⟨7, 2, 3, 5, true⟩ : Account).applySeq Transactions.empty
        [⟨1, .Deposit, 7, some 5⟩, ⟨1, .Dispute, 7, none⟩]
      = (⟨7, 2, 3, 5, true⟩, Transactions.empty)) :=
  ⟨(locked_account_is_terminal ⟨7, 2, 3, 5, true⟩ rfl).1 _ _,
   (locked_account_is_terminal ⟨7, 2, 3, 5, true⟩ rfl).2 _ _⟩

/-- C4: a withdrawal of `amt` on an unlocked account fails with
`InsufficientFunds` leaving account and ledger untouched when `amt` exceeds
`available` or `total`; otherwise both balances decrease by exactly `amt`
and an Ok-status Withdrawal entry is stored under the transaction id. -/
theorem withdrawal_checked_atomic (a : Account) (m : Mutation)
    (l : Transactions) (amt : Nat) (hl : a.locked = false)
    (hk : m.kind = .Withdrawal) (ha : m.amount = some amt) :
    (a.available < amt ∨ a.total < amt →
      a.mutate m l = (.error .InsufficientFunds, a, l)) ∧
    (amt ≤ a.available → amt ≤ a.total →
      a.mutate m l =
        (.ok (),
         { a with available := a.available - amt, total := a.total - amt },
         l.insert m.id ⟨m.id, .Withdrawal, m.client, amt, .Ok⟩)) := by
  constructor
  · intro hlt
    rcases hlt with hlt | hlt
    · have hc1 : checkedSub a.available amt = none := by
        simp [checkedSub]; omega
      simp [Account.mutate, hl, hk, Account.processWithdrawal,
            Mutation.tryIntoTransaction, ha, hc1]
    · by_cases hav : amt ≤ a.available
      · have hc1 : checkedSub a.available amt = some (a.available - amt) := by
          simp [checkedSub, hav]
        have hc2 : checkedSub a.total amt = none := by
          simp [checkedSub]; omega
        simp [Account.mutate, hl, hk, Account.processWithdrawal,
              Mutation.tryIntoTransaction, ha, hc1, hc2]
      · have hc1 : checkedSub a.available amt = none := by
          simp [checkedSub, hav]
        simp [Account.mutate, hl, hk, Account.processWithdrawal,
              Mutation.tryIntoTransaction, ha, hc1]
  · intro h1 h2
    have hc1 : checkedSub a.available amt = some (a.available - amt) := by
      simp [checkedSub, h1]
    have hc2 : checkedSub a.total amt = some (a.total - amt) := by
      simp [checkedSub, h2]
    simp [Account.mutate, hl, hk, Account.processWithdrawal,
          Mutation.tryIntoTransaction, ha, hc1, hc2]

/-- Witness for C4: a failing withdrawal (9 from 7) and a succeeding one
(5 from 7) at concrete inputs. -/
theorem withdrawal_checked_atomic_witness :
    ((⟨1, 7, 0, 7, false⟩ : Account).mutate ⟨2, .Withdrawal, 1, some 9⟩
        Transactions.empty
      = (.error .InsufficientFunds, ⟨1, 7, 0, 7, false⟩, Transactions.empty))
    ∧ ((⟨1, 7, 0, 7, false⟩ : Account).mutate ⟨2, .Withdrawal, 1, some 5⟩
        Transactions.empty
      = (.ok (), ⟨1, 2, 0, 2, false⟩,
         Transactions.empty.insert 2 ⟨2, .Withdrawal, 1, 5, .Ok⟩)) :=
  ⟨(withdrawal_checked_atomic ⟨1, 7, 0, 7, false⟩ ⟨2, .Withdrawal, 1, some 9⟩
      Transactions.empty 9 rfl rfl rfl).1 (Or.inl (by decide)),
   (withdrawal_checked_atomic ⟨1, 7, 0, 7, false⟩ ⟨2, .Withdrawal, 1, some 5⟩
      Transactions.empty 5 rfl rfl rfl).2 (by decide) (by decide)⟩

/-- C5 counterexample: the claim states a deposit whose amount overflows the
32-bit balances makes `mutate` report an overflow error.  At the concrete
account holding `u32::MAX` the deposit of 1 instead returns success with the
balances wrapped around to 0. -/
theorem deposit_overflow_reports_no_error :
    (((⟨1, 4294967295, 0, 4294967295, false⟩ : Account).mutate
        ⟨1, .Deposit, 1, some 1⟩ Transactions.empty).1 = .ok ())
    ∧ (((⟨1, 4294967295, 0, 4294967295, false⟩ : Account).mutate
        ⟨1, .Deposit, 1, some 1⟩ Transactions.empty).2.1
      = ⟨1, 0, 0, 0, false⟩) := by
  decide

/-- C5 amended: a deposit on an unlocked account always succeeds, adding the
amount to `available` and `total` modulo `2^32` (the wrapping `u32`
semantics of the unchecked additions), with no overflow error ever
reported. -/
theorem deposit_wraps_mod_u32 (a : Account) (m : Mutation) (l : Transactions)
    (amt : Nat) (hl : a.locked = false) (hk : m.kind = .Deposit)
    (ha : m.amount = some amt) :
    a.mutate m l =
      (.ok (), { a with available := (a.available + amt) % u32Mod,
                        total := (a.total + amt) % u32Mod },
       l.insert m.id ⟨m.id, .Deposit, m.client, amt, .Ok⟩) := by
  simp [Account.mutate, hl, hk, Account.processDeposit,
        Mutation.tryIntoTransaction, ha]

/-- Witness for the amended C5 at a concrete wrapping deposit. -/
theorem deposit_wraps_mod_u32_witness :
    (⟨1, 4294967290, 0, 4294967290, false⟩ : Account).mutate
        ⟨3, .Deposit, 1, some 10⟩ Transactions.empty
      = (.ok (), ⟨1, 4, 0, 4, false⟩,
         Transactions.empty.insert 3 ⟨3, .Deposit, 1, 10, .Ok⟩) := by
  have h := deposit_wraps_mod_u32 ⟨1, 4294967290, 0, 4294967290, false⟩
    ⟨3, .Deposit, 1, some 10⟩ Transactions.empty 10 rfl rfl rfl
  simpa using h

/-- C6 counterexample: the claim states a deposit reusing an existing
transaction id fails and never changes the stored entry.  Concretely, a
second deposit under id 1 returns success and the stored entry's amount
changes from 5 to 7: `HashMap::insert` replaces the entry. -/
theorem reused_id_overwrites_entry :
    ((EngineState.initial.run [⟨1, .Deposit, 1, some 5⟩]).2.trxs 1
      = some ⟨1, .Deposit, 1, 5, .Ok⟩)
    ∧ ((EngineState.initial.run
        [⟨1, .Deposit, 1, some 5⟩, ⟨1, .Deposit, 1, some 7⟩]).1 = .ok ())
    ∧ ((EngineState.initial.run
        [⟨1, .Deposit, 1, some 5⟩, ⟨1, .Deposit, 1, some 7⟩]).2.trxs 1
      = some ⟨1, .Deposit, 1, 7, .Ok⟩) := by
  decide

/-- C6 amended: a successful deposit, or a sufficiently funded withdrawal,
stores its own fresh Ok-status entry under its transaction id regardless of
what the ledger previously held there: the insert replaces any existing
entry and never fails. -/
theorem ledger_insert_replaces (a : Account) (m : Mutation) (l : Transactions)
    (amt : Nat) (hl : a.locked = false) (ha : m.amount = some amt)
    (hk : m.kind = .Deposit
          ∨ (m.kind = .Withdrawal ∧ amt ≤ a.available ∧ amt ≤ a.total)) :
    (a.mutate m l).1 = .ok ()
    ∧ (a.mutate m l).2.2 m.id = some ⟨m.id, m.kind, m.client, amt, .Ok⟩ := by
  rcases hk with hk | ⟨hk, h1, h2⟩
  · simp [Account.mutate, hl, hk, Account.processDeposit,
          Mutation.tryIntoTransaction, ha, Transactions.insert]
  · have hc1 : checkedSub a.available amt = some (a.available - amt) := by
      simp [checkedSub, h1]
    have hc2 : checkedSub a.total amt = some (a.total - amt) := by
      simp [checkedSub, h2]
    simp [Account.mutate, hl, hk, Account.processWithdrawal,
          Mutation.tryIntoTransaction, ha, hc1, hc2, Transactions.insert]

/-- Witness for the amended C6: a deposit reusing id 1 over a ledger already
holding an entry under id 1 succeeds and the lookup now returns the new
entry. -/
theorem ledger_insert_replaces_witness :
    (((⟨1, 9, 0, 9, false⟩ : Account).mutate ⟨1, .Deposit, 1, some 7⟩
        (Transactions.empty.insert 1 ⟨1, .Deposit, 1, 5, .Ok⟩)).1 = .ok ())
    ∧ (((⟨1, 9, 0, 9, false⟩ : Account).mutate ⟨1, .Deposit, 1, some 7⟩
        (Transactions.empty.insert 1 ⟨1, .Deposit, 1, 5, .Ok⟩)).2.2 1
      = some ⟨1, .Deposit, 1, 7, .Ok⟩) :=
  ledger_insert_replaces ⟨1, 9, 0, 9, false⟩ ⟨1, .Deposit, 1, some 7⟩
    (Transactions.empty.insert 1 ⟨1, .Deposit, 1, 5, .Ok⟩) 7 rfl rfl
    (Or.inl rfl)

/-- Inserting and then rewriting clients is the same as rewriting clients
and inserting the rewritten entry. -/
theorem mapClient_insert (f : Nat → Nat) (l : Transactions) (id : Nat)
    (t : Transaction) :
    (l.insert id t).mapClient f
      = (l.mapClient f).insert id { t with client := f t.client } := by
  funext k
  simp only [Transactions.mapClient, Transactions.insert]
  by_cases hk : k = id <;> simp [hk]

/-- C7: on a fresh account, Deposit(tx 1, 5.0000 = 50000 units) then
Dispute, Resolve and Chargeback of transaction 1 produce the spec's
intermediate balances, with the entry status advancing
Ok, Disputed, Resolved, Refunded, the account ending locked and empty; and
in general a Chargeback on an unlocked account whose id is absent from the
ledger or whose entry status is not Resolved is a no-op success. -/
theorem dispute_lifecycle_scenario :
    (((Account.new 1).applySeq Transactions.empty
        [⟨1, .Deposit, 1, some 50000⟩]).1 = ⟨1, 50000, 0, 50000, false⟩
     ∧ ((Account.new 1).applySeq Transactions.empty
        [⟨1, .Deposit, 1, some 50000⟩]).2 1
        = some ⟨1, .Deposit, 1, 50000, .Ok⟩
     ∧ ((Account.new 1).applySeq Transactions.empty
        [⟨1, .Deposit, 1, some 50000⟩, ⟨1, .Dispute, 1, none⟩]).1
        = ⟨1, 0, 50000, 50000, false⟩
     ∧ ((Account.new 1).applySeq Transactions.empty
        [⟨1, .Deposit, 1, some 50000⟩, ⟨1, .Dispute, 1, none⟩]).2 1
        = some ⟨1, .Deposit, 1, 50000, .Disputed⟩
     ∧ ((Account.new 1).applySeq Transactions.empty
        [⟨1, .Deposit, 1, some 50000⟩, ⟨1, .Dispute, 1, none⟩,
         ⟨1, .Resolve, 1, none⟩]).1 = ⟨1, 50000, 0, 50000, false⟩
     ∧ ((Account.new 1).applySeq Transactions.empty
        [⟨1, .Deposit, 1, some 50000⟩, ⟨1, .Dispute, 1, none⟩,
         ⟨1, .Resolve, 1, none⟩]).2 1 = some ⟨1, .Deposit, 1, 50000, .Resolved⟩
     ∧ ((Account.new 1).applySeq Transactions.empty
        [⟨1, .Deposit, 1, some 50000⟩, ⟨1, .Dispute, 1, none⟩,
         ⟨1, .Resolve, 1, none⟩, ⟨1, .Chargeback, 1, none⟩]).1
        = ⟨1, 0, 0, 0, true⟩
     ∧ ((Account.new 1).applySeq Transactions.empty
        [⟨1, .Deposit, 1, some 50000⟩, ⟨1, .Dispute, 1, none⟩,
         ⟨1, .Resolve, 1, none⟩, ⟨1, .Chargeback, 1, none⟩]).2 1
        = some ⟨1, .Deposit, 1, 50000, .Refunded⟩)
    ∧ (∀ (a : Account) (m : Mutation) (l : Transactions),
        a.locked = false → m.kind = .Chargeback →
        (∀ t, l m.id = some t → t.status ≠ .Resolved) →
        a.mutate m l = (.ok (), a, l)) := by
  refine ⟨by decide, ?_⟩
  intro a m l hl hk habs
  cases hml : l m.id with
  | none => simp [Account.mutate, hl, hk, Account.processChargeback, hml]
  | some t =>
      have hs : t.status ≠ .Resolved := habs t hml
      simp [Account.mutate, hl, hk, Account.processChargeback, hml, hs]

/-- Witness for C7's general clause: a chargeback of a never-seen id on a
fresh account is a no-op success. -/
theorem dispute_lifecycle_scenario_witness :
    (Account.new 1).mutate ⟨9, .Chargeback, 1, none⟩ Transactions.empty
      = (.ok (), Account.new 1, Transactions.empty) :=
  dispute_lifecycle_scenario.2 (Account.new 1) ⟨9, .Chargeback, 1, none⟩
    Transactions.empty rfl rfl (fun _ h => Option.noConfusion h)

/-- A Resolve via mutate whose entry is not in Disputed status leaves the
account and ledger unchanged, locked or not. -/
theorem mutate_resolve_wrong_status_noop (a : Account) (l : Transactions)
    (m : Mutation) (t : Transaction) (hk : m.kind = .Resolve)
    (hml : l m.id = some t) (hs : t.status ≠ .Disputed) :
    (a.mutate m l).2 = (a, l) := by
  by_cases hlk : a.locked <;>
    simp [Account.mutate, hlk, hk, Account.processResolve, hml, hs]

/-- A Chargeback via mutate whose entry is not in Resolved status leaves the
account and ledger unchanged, locked or not. -/
theorem mutate_chargeback_wrong_status_noop (a : Account) (l : Transactions)
    (m : Mutation) (t : Transaction) (hk : m.kind = .Chargeback)
    (hml : l m.id = some t) (hs : t.status ≠ .Resolved) :
    (a.mutate m l).2 = (a, l) := by
  by_cases hlk : a.locked <;>
    simp [Account.mutate, hlk, hk, Account.processChargeback, hml, hs]

/-- C9: applying a Resolve (resp. Chargeback) twice in a row for the same
transaction id, where after the first application the stored entry's status
has advanced past the status the operation requires, leaves the account and
the ledger exactly as the first application left them. -/
theorem second_resolve_chargeback_is_noop (a : Account) (l : Transactions)
    (m1 m2 : Mutation) (t : Transaction) (_hid : m1.id = m2.id) :
    (m1.kind = .Resolve → m2.kind = .Resolve →
      (a.mutate m1 l).2.2 m2.id = some t →
      t.status = .Resolved ∨ t.status = .Refunded →
      ((a.mutate m1 l).2.1.mutate m2 (a.mutate m1 l).2.2).2
        = (a.mutate m1 l).2) ∧
    (m1.kind = .Chargeback → m2.kind = .Chargeback →
      (a.mutate m1 l).2.2 m2.id = some t →
      t.status = .Refunded →
      ((a.mutate m1 l).2.1.mutate m2 (a.mutate m1 l).2.2).2
        = (a.mutate m1 l).2) := by
  constructor
  · intro _ hk2 hml hst
    have hs : t.status ≠ .Disputed := by
      rcases hst with h | h <;> simp [h]
    exact mutate_resolve_wrong_status_noop _ _ _ _ hk2 hml hs
  · intro _ hk2 hml hst
    have hs : t.status ≠ .Resolved := by simp [hst]
    exact mutate_chargeback_wrong_status_noop _ _ _ _ hk2 hml hs

/-- Witness for C9: concrete second Resolve after a successful Resolve, and
concrete second Chargeback after a successful Chargeback, each leaving the
state of the first application unchanged. -/
theorem second_resolve_chargeback_is_noop_witness :
    ((((⟨1, 0, 5, 5, false⟩ : Account).mutate ⟨1, .Resolve, 1, none⟩
          (Transactions.empty.insert 1 ⟨1, .Deposit, 1, 5, .Disputed⟩)).2.1.mutate
        ⟨1, .Resolve, 1, none⟩
        ((⟨1, 0, 5, 5, false⟩ : Account).mutate ⟨1, .Resolve, 1, none⟩
          (Transactions.empty.insert 1 ⟨1, .Deposit, 1, 5, .Disputed⟩)).2.2).2
      = ((⟨1, 0, 5, 5, false⟩ : Account).mutate ⟨1, .Resolve, 1, none⟩
          (Transactions.empty.insert 1 ⟨1, .Deposit, 1, 5, .Disputed⟩)).2)
    ∧ ((((⟨1, 5, 0, 5, false⟩ : Account).mutate ⟨1, .Chargeback, 1, none⟩
          (Transactions.empty.insert 1 ⟨1, .Deposit, 1, 5, .Resolved⟩)).2.1.mutate
        ⟨1, .Chargeback, 1, none⟩
        ((⟨1, 5, 0, 5, false⟩ : Account).mutate ⟨1, .Chargeback, 1, none⟩
          (Transactions.empty.insert 1 ⟨1, .Deposit, 1, 5, .Resolved⟩)).2.2).2
      = ((⟨1, 5, 0, 5, false⟩ : Account).mutate ⟨1, .Chargeback, 1, none⟩
          (Transactions.empty.insert 1 ⟨1, .Deposit, 1, 5, .Resolved⟩)).2) :=
  ⟨(second_resolve_chargeback_is_noop ⟨1, 0, 5, 5, false⟩
      (Transactions.empty.insert 1 ⟨1, .Deposit, 1, 5, .Disputed⟩)
      ⟨1, .Resolve, 1, none⟩ ⟨1, .Resolve, 1, none⟩
      ⟨1, .Deposit, 1, 5, .Resolved⟩ rfl).1 rfl rfl (by decide) (Or.inl rfl),
   (second_resolve_chargeback_is_noop ⟨1, 5, 0, 5, false⟩
      (Transactions.empty.insert 1 ⟨1, .Deposit, 1, 5, .Resolved⟩)
      ⟨1, .Chargeback, 1, none⟩ ⟨1, .Chargeback, 1, none⟩
      ⟨1, .Deposit, 1, 5, .Refunded⟩ rfl).2 rfl rfl (by decide) rfl⟩

/-- C10: a Dispute naming client 1 but whose transaction id refers to the
ledger entry deposited by client 2 is applied to client 1's account using
client 2's entry amount (concrete run below), and in general none of the
dispute-family processors reads the stored entry's client field: each
commutes with an arbitrary rewriting of the client fields of the ledger. -/
theorem cross_client_dispute_uses_entry_amount :
    (((EngineState.initial.run
        [⟨1, .Deposit, 2, some 5⟩, ⟨2, .Deposit, 1, some 7⟩,
         ⟨1, .Dispute, 1, none⟩]).1 = .ok ())
     ∧ ((EngineState.initial.run
        [⟨1, .Deposit, 2, some 5⟩, ⟨2, .Deposit, 1, some 7⟩,
         ⟨1, .Dispute, 1, none⟩]).2.accounts 1 = some ⟨1, 2, 5, 7, false⟩)
     ∧ ((EngineState.initial.run
        [⟨1, .Deposit, 2, some 5⟩, ⟨2, .Deposit, 1, some 7⟩,
         ⟨1, .Dispute, 1, none⟩]).2.accounts 2 = some ⟨2, 5, 0, 5, false⟩)
     ∧ ((EngineState.initial.run
        [⟨1, .Deposit, 2, some 5⟩, ⟨2, .Deposit, 1, some 7⟩,
         ⟨1, .Dispute, 1, none⟩]).2.trxs 1
        = some ⟨1, .Deposit, 2, 5, .Disputed⟩))
    ∧ (∀ (f : Nat → Nat) (a : Account) (id : Nat) (l : Transactions),
        a.processDispute id (l.mapClient f)
          = ((a.processDispute id l).1, (a.processDispute id l).2.1,
             Transactions.mapClient f (a.processDispute id l).2.2))
    ∧ (∀ (f : Nat → Nat) (a : Account) (id : Nat) (l : Transactions),
        a.processResolve id (l.mapClient f)
          = ((a.processResolve id l).1, (a.processResolve id l).2.1,
             Transactions.mapClient f (a.processResolve id l).2.2))
    ∧ (∀ (f : Nat → Nat) (a : Account) (id : Nat) (l : Transactions),
        a.processChargeback id (l.mapClient f)
          = ((a.processChargeback id l).1, (a.processChargeback id l).2.1,
             Transactions.mapClient f (a.processChargeback id l).2.2)) := by
  refine ⟨by decide, ?_, ?_, ?_⟩
  · intro f a id l
    unfold Account.processDispute
    cases hml : l id with
    | none => simp [Transactions.mapClient, hml]
    | some t =>
        by_cases hs : t.status = .Ok
        · cases hcs : checkedSub a.available t.amount with
          | none => simp [Transactions.mapClient, hml, hs, hcs]
          | some av =>
              simp [Transactions.mapClient, hml, hs, hcs, mapClient_insert]
        · by_cases hkind : t.kind = .Deposit <;>
            simp [Transactions.mapClient, hml, hs, hkind]
  · intro f a id l
    unfold Account.processResolve
    cases hml : l id with
    | none => simp [Transactions.mapClient, hml]
    | some t =>
        by_cases hs : t.status = .Disputed
        · cases hcs : checkedSub a.held t.amount with
          | none => simp [Transactions.mapClient, hml, hs, hcs]
          | some h =>
              simp [Transactions.mapClient, hml, hs, hcs, mapClient_insert]
        · simp [Transactions.mapClient, hml, hs]
  · intro f a id l
    unfold Account.processChargeback
    cases hml : l id with
    | none => simp [Transactions.mapClient, hml]
    | some t =>
        by_cases hs : t.status = .Resolved
        · cases hcs : checkedSub a.available t.amount with
          | none => simp [Transactions.mapClient, hml, hs, hcs]
          | some av =>
              cases hct : checkedSub a.total t.amount with
              | none => simp [Transactions.mapClient, hml, hs, hcs, hct]
              | some tot =>
                  simp [Transactions.mapClient, hml, hs, hcs, hct,
                        mapClient_insert]
        · simp [Transactions.mapClient, hml, hs]

end TxnEngine
